import Mathlib

/-!
Shallow embedding of the Airtable MCP server (src/main.py): the query and
body construction performed by the tool functions, the response handling of
handle_api_request, and the Nango credential flow.  Python dicts are
modelled as insertion-ordered association lists, machine integers as Int,
and fallible code as Except.
-/

/-- JSON values as produced by json.loads.  Objects are modelled as
insertion-ordered association lists (Python dicts built by the json module
have unique keys); numbers are restricted to integers, which covers every
value the claims mention. -/
inductive Json where
  | null : Json
  | bool (b : Bool) : Json
  | num (n : Int) : Json
  | str (s : String) : Json
  | arr (xs : List Json) : Json
  | obj (kvs : List (String × Json)) : Json

/-- Python dict assignment d[k] = v on an insertion-ordered association
list: an existing key keeps its position and gets the new value, a new key
is appended at the end. -/
def dictSet {α : Type} : List (String × α) → String → α → List (String × α)
  | [], k, v => [(k, v)]
  | (k0, v0) :: rest, k, v =>
      if k0 = k then (k, v) :: rest else (k0, v0) :: dictSet rest k v

/-- Python dict lookup d.get(k): the value stored at the first (unique)
occurrence of the key, if any. -/
def dlookup {α : Type} : List (String × α) → String → Option α
  | [], _ => none
  | (k0, v0) :: rest, k => if k0 = k then some v0 else dlookup rest k

/-- A single-quote character, used when rendering Python repr of strings. -/
def pyQuote : String := String.singleton (Char.ofNat 39)

/-- A backslash character. -/
def pyBackslash : String := String.singleton (Char.ofNat 92)

/-- Escaping of one character inside a Python single-quoted string repr. -/
def pyReprChar (c : Char) : String :=
  if c = Char.ofNat 92 then pyBackslash ++ pyBackslash
  else if c = Char.ofNat 39 then pyBackslash ++ pyQuote
  else String.singleton c

/-- Python repr of a string: single quotes around the escaped characters. -/
def pyReprStr (s : String) : String :=
  pyQuote ++ String.join (s.data.map pyReprChar) ++ pyQuote

mutual

/-- Python repr of a parsed JSON value: None, True and False for the
constants, single-quoted strings, bracketed lists and braced dicts with
", " separators, exactly as str() renders a dict produced by json.loads. -/
def pyRepr : Json → String
  | Json.null => "None"
  | Json.bool true => "True"
  | Json.bool false => "False"
  | Json.num n => toString n
  | Json.str s => pyReprStr s
  | Json.arr xs => "[" ++ String.intercalate ", " (pyReprList xs) ++ "]"
  | Json.obj kvs => "\x7b" ++ String.intercalate ", " (pyReprPairs kvs) ++ "\x7d"

/-- Renders every element of a list with pyRepr. -/
def pyReprList : List Json → List String
  | [] => []
  | x :: xs => pyRepr x :: pyReprList xs

/-- Renders every key-value pair of a dict with pyRepr. -/
def pyReprPairs : List (String × Json) → List String
  | [] => []
  | (k, v) :: rest => (pyReprStr k ++ ": " ++ pyRepr v) :: pyReprPairs rest

end

/-- Python str() of a parsed JSON value: a string renders as itself, every
other value as its repr.  This is what an f-string interpolation produces. -/
def pyStr : Json → String
  | Json.str s => s
  | j => pyRepr j

/-- Python truthiness test used by the idiom `if x:` on an optional string
argument: None and the empty string are falsy. -/
def addStrParam (params : List (String × Json)) (k : String) (o : Option String) :
    List (String × Json) :=
  match o with
  | some s => if s = "" then params else dictSet params k (Json.str s)
  | none => params

/-- The idiom `if x: params[k] = x` for an optional integer argument:
None and 0 are falsy. -/
def addIntParam (params : List (String × Json)) (k : String) (o : Option Int) :
    List (String × Json) :=
  match o with
  | some n => if n = 0 then params else dictSet params k (Json.num n)
  | none => params

/-- The idiom `if xs: for x in xs: params[K] = x` used by list_records for
fields and by get_users_by_id_or_email for user_ids and emails: every
iteration assigns the same dict key. -/
def addRepeatedParam (params : List (String × Json)) (k : String)
    (o : Option (List String)) : List (String × Json) :=
  match o with
  | some xs =>
      if xs = [] then params
      else xs.foldl (fun d x => dictSet d k (Json.str x)) params
  | none => params

/-- The idiom `if x is not None: data[k] = x` for an optional boolean. -/
def addOptBool (data : List (String × Json)) (k : String) (o : Option Bool) :
    List (String × Json) :=
  match o with
  | some b => dictSet data k (Json.bool b)
  | none => data

/-- The idiom `if xs: data[k] = xs` for an optional list of strings, which
stores the whole list under one key: None and the empty list are falsy. -/
def addListParam (data : List (String × Json)) (k : String)
    (o : Option (List String)) : List (String × Json) :=
  match o with
  | some xs => if xs = [] then data else dictSet data k (Json.arr (xs.map Json.str))
  | none => data

/-- The query key built for element i and per-element key k of the sort
parameter of list_records: the f-string sort[i][k]. -/
def sortKey (i : Nat) (k : String) : String :=
  "sort[" ++ toString i ++ "][" ++ k ++ "]"

/-- The sort loop of list_records: for i, sort_obj in enumerate(sort), for
key, value in sort_obj.items(), assign params[sort[i][key]] = value. -/
def addSortParams (params : List (String × Json))
    (o : Option (List (List (String × String)))) : List (String × Json) :=
  match o with
  | some ss =>
      if ss = [] then params
      else (ss.enum).foldl
        (fun d p =>
          p.2.foldl (fun d kv => dictSet d (sortKey p.1 kv.1) (Json.str kv.2)) d)
        params
  | none => params

/-- Query parameters built by list_records (src/main.py lines 209-231),
with the steps in source order: fields, filterByFormula, maxRecords,
pageSize, view, cellFormat, timeZone, userLocale, then sort. -/
def listRecordsParams (fields : Option (List String))
    (filter_by_formula : Option String)
    (max_records page_size : Option Int)
    (sort : Option (List (List (String × String))))
    (view cell_format time_zone user_locale : Option String) :
    List (String × Json) :=
  let p := addRepeatedParam [] "fields[]" fields
  let p := addStrParam p "filterByFormula" filter_by_formula
  let p := addIntParam p "maxRecords" max_records
  let p := addIntParam p "pageSize" page_size
  let p := addStrParam p "view" view
  let p := addStrParam p "cellFormat" cell_format
  let p := addStrParam p "timeZone" time_zone
  let p := addStrParam p "userLocale" user_locale
  addSortParams p sort

/-- Query parameters built by get_users_by_id_or_email (src/main.py lines
777-786): the id and email loops assign a single repeated dict key each,
and include is stored as a whole list. -/
def getUsersByIdOrEmailParams (user_ids emails include_ : Option (List String)) :
    List (String × Json) :=
  let p := addRepeatedParam [] "id[]" user_ids
  let p := addRepeatedParam p "email[]" emails
  addListParam p "include" include_

/-- Query parameters built by get_record (src/main.py lines 246-251):
cellFormat is guarded by truthiness, returnFieldsByFieldId by is-not-None. -/
def get_record_params (cell_format : Option String)
    (return_fields_by_field_id : Option Bool) : List (String × Json) :=
  let p := addStrParam [] "cellFormat" cell_format
  addOptBool p "returnFieldsByFieldId" return_fields_by_field_id

/-- The if records / elif fields choice of create_records (src/main.py
lines 269-272): a truthy records batch goes under records, otherwise a
truthy fields mapping goes under fields, otherwise the dict stays empty. -/
def createRecordsBody (records : Option (List Json))
    (fields : Option (List (String × Json))) : List (String × Json) :=
  match records with
  | some (r :: rs) => dictSet [] "records" (Json.arr (r :: rs))
  | _ =>
      match fields with
      | some (f :: fs) => dictSet [] "fields" (Json.obj (f :: fs))
      | _ => []

/-- Request body built by create_records (src/main.py lines 267-277):
the records/fields choice, then the two optional booleans. -/
def create_records_data (records : Option (List Json))
    (fields : Option (List (String × Json)))
    (typecast return_fields_by_field_id : Option Bool) : List (String × Json) :=
  let data := createRecordsBody records fields
  let data := addOptBool data "typecast" typecast
  addOptBool data "returnFieldsByFieldId" return_fields_by_field_id

/-- Request body built by update_multiple_records (src/main.py lines
315-324). -/
def update_multiple_records_data (records : List Json)
    (typecast return_fields_by_field_id perform_upsert : Option Bool)
    (fields_to_merge_on : Option (List String)) : List (String × Json) :=
  let data : List (String × Json) := [("records", Json.arr records)]
  let data := addOptBool data "typecast" typecast
  let data := addOptBool data "returnFieldsByFieldId" return_fields_by_field_id
  let data := addOptBool data "performUpsert" perform_upsert
  addListParam data "fieldsToMergeOn" fields_to_merge_on

/-- Request body built by remove_user_from_enterprise (src/main.py lines
801-808): replacementOwnerId is guarded by truthiness, the two booleans by
is-not-None. -/
def remove_user_from_enterprise_data (replacement_owner_id : Option String)
    (remove_from_descendants is_dry_run : Option Bool) : List (String × Json) :=
  let data := addStrParam [] "replacementOwnerId" replacement_owner_id
  let data := addOptBool data "removeFromDescendants" remove_from_descendants
  addOptBool data "isDryRun" is_dry_run

/-- Substring test on character lists: the needle occurs contiguously in
the haystack. -/
def charsPrefixOf : List Char → List Char → Bool
  | [], _ => true
  | _ :: _, [] => false
  | a :: as, b :: bs => a = b && charsPrefixOf as bs

/-- Bool-valued contiguous-substring test, used to model the Python
operator `needle in haystack` on strings. -/
def charsInfixOf (needle : List Char) : List Char → Bool
  | [] => charsPrefixOf needle []
  | b :: bs => charsPrefixOf needle (b :: bs) || charsInfixOf needle bs

/-- Python substring membership test s2 in s1. -/
def strContains (hay needle : String) : Bool :=
  charsInfixOf needle.data hay.data

/-- Exceptions the dynamic operations of get_airtable_token can raise:
TypeError from `in` on a non-container, TypeError from subscripting a
non-mapping, KeyError, and the explicit ValueError of the else branch. -/
inductive PyErr where
  | typeErrNotIterable (tname : String) : PyErr
  | typeErrStrIndex : PyErr
  | typeErrListIndex : PyErr
  | typeErrNotSubscriptable (tname : String) : PyErr
  | keyErr (k : String) : PyErr
  | valueErr (msg : String) : PyErr

/-- The Python type name of a parsed JSON value. -/
def pyTypeName : Json → String
  | Json.null => "NoneType"
  | Json.bool _ => "bool"
  | Json.num _ => "int"
  | Json.str _ => "str"
  | Json.arr _ => "list"
  | Json.obj _ => "dict"

/-- The str() of each modelled exception, following the CPython messages. -/
def pyErrStr : PyErr → String
  | PyErr.typeErrNotIterable t =>
      "argument of type " ++ pyQuote ++ t ++ pyQuote ++ " is not iterable"
  | PyErr.typeErrStrIndex => "string indices must be integers"
  | PyErr.typeErrListIndex =>
      "list indices must be integers or slices, not str"
  | PyErr.typeErrNotSubscriptable t =>
      pyQuote ++ t ++ pyQuote ++ " object is not subscriptable"
  | PyErr.keyErr k => pyReprStr k
  | PyErr.valueErr m => m

/-- The Python operator `k in j` for a string k: key membership on a dict,
substring membership on a str, element membership on a list, and a
TypeError on every other type. -/
def pyIn (k : String) : Json → Except PyErr Bool
  | Json.obj kvs => Except.ok (dlookup kvs k).isSome
  | Json.str s => Except.ok (strContains s k)
  | Json.arr xs =>
      Except.ok (xs.any fun x => match x with | Json.str t => t = k | _ => false)
  | j => Except.error (PyErr.typeErrNotIterable (pyTypeName j))

/-- The Python operator j[k] for a string k: dict lookup (KeyError when
missing), and a TypeError on every other type. -/
def pyGetItem (j : Json) (k : String) : Except PyErr Json :=
  match j with
  | Json.obj kvs =>
      match dlookup kvs k with
      | some v => Except.ok v
      | none => Except.error (PyErr.keyErr k)
  | Json.str _ => Except.error PyErr.typeErrStrIndex
  | Json.arr _ => Except.error PyErr.typeErrListIndex
  | _ => Except.error (PyErr.typeErrNotSubscriptable (pyTypeName j))

/-- The body of the try block of get_airtable_token (src/main.py lines
61-68): the nested check "credentials" in credentials and "access_token"
in credentials["credentials"] with short-circuit evaluation, then the flat
check "access_token" in credentials, then the explicit ValueError. -/
def extractAccessToken (credentials : Json) : Except PyErr Json :=
  match pyIn "credentials" credentials with
  | Except.error e => Except.error e
  | Except.ok hasCred =>
    let nested : Except PyErr Bool :=
      if hasCred then
        match pyGetItem credentials "credentials" with
        | Except.error e => Except.error e
        | Except.ok inner => pyIn "access_token" inner
      else Except.ok false
    match nested with
    | Except.error e => Except.error e
    | Except.ok true =>
        match pyGetItem credentials "credentials" with
        | Except.error e => Except.error e
        | Except.ok inner => pyGetItem inner "access_token"
    | Except.ok false =>
        match pyIn "access_token" credentials with
        | Except.error e => Except.error e
        | Except.ok true => pyGetItem credentials "access_token"
        | Except.ok false =>
            Except.error
              (PyErr.valueErr "No access_token found in Nango credentials response")

/-- get_airtable_token applied to an already-fetched broker payload: any
exception raised inside the try block is caught by the bare except and
re-raised as ValueError with the wrapping prefix (src/main.py lines 69-70). -/
def get_airtable_token (credentials : Json) : Except String Json :=
  match extractAccessToken credentials with
  | Except.ok v => Except.ok v
  | Except.error e =>
      Except.error ("Failed to get authentication token from Nango: " ++ pyErrStr e)

/-- The four Nango environment variables as read by os.environ.get: None
when the variable is absent, its (possibly empty) string value otherwise. -/
structure NangoEnv where
  connection_id : Option String
  integration_id : Option String
  base_url : Option String
  secret_key : Option String

/-- Python truthiness of an optional environment value: None and the
empty string are falsy. -/
def envTruthy : Option String → Bool
  | none => false
  | some s => s ≠ ""

/-- The name-value list built by get_connection_credentials (src/main.py
lines 33-38), in source order. -/
def nangoEnvPairs (e : NangoEnv) : List (String × Option String) :=
  [("NANGO_CONNECTION_ID", e.connection_id),
   ("NANGO_INTEGRATION_ID", e.integration_id),
   ("NANGO_BASE_URL", e.base_url),
   ("NANGO_SECRET_KEY", e.secret_key)]

/-- The missing_vars list comprehension: the names whose value is falsy. -/
def missingVars (e : NangoEnv) : List String :=
  ((nangoEnvPairs e).filter (fun p => !envTruthy p.2)).map Prod.fst

/-- The configuration precheck of get_connection_credentials (src/main.py
lines 31-40): some error message when not all four values are truthy. -/
def nangoPrecheckError (e : NangoEnv) : Option String :=
  if (nangoEnvPairs e).all (fun p => envTruthy p.2) then none
  else
    some ("Missing required Nango environment variables: "
      ++ String.intercalate ", " (missingVars e))

/-- Outcome of the single HTTP request get_connection_credentials makes to
the Nango broker: a parsed JSON body, a RequestException, or a JSON decode
failure of the response body. -/
inductive BrokerOutcome where
  | success (body : Json) : BrokerOutcome
  | httpFailure (msg : String) : BrokerOutcome
  | parseFailure (msg : String) : BrokerOutcome

/-- get_connection_credentials (src/main.py lines 24-56) as a function of
the environment and of the broker outcome; the Nat counts how many HTTP
calls to the broker were made. -/
def get_connection_credentials_t (e : NangoEnv) (b : BrokerOutcome) :
    Except String Json × Nat :=
  match nangoPrecheckError e with
  | some m => (Except.error m, 0)
  | none =>
    match b with
    | BrokerOutcome.success j => (Except.ok j, 1)
    | BrokerOutcome.httpFailure m =>
        (Except.error ("Failed to get Nango credentials: " ++ m), 1)
    | BrokerOutcome.parseFailure m =>
        (Except.error ("Failed to parse Nango response: " ++ m), 1)

/-- get_airtable_token (src/main.py lines 58-70) as a function of the
environment and the broker outcome, with the broker-call count threaded
through; every failure inside the try block is wrapped by the except. -/
def get_airtable_token_t (e : NangoEnv) (b : BrokerOutcome) :
    Except String Json × Nat :=
  match get_connection_credentials_t e b with
  | (Except.error m, n) =>
      (Except.error ("Failed to get authentication token from Nango: " ++ m), n)
  | (Except.ok credentials, n) =>
    match extractAccessToken credentials with
    | Except.ok v => (Except.ok v, n)
    | Except.error pe =>
        (Except.error ("Failed to get authentication token from Nango: "
          ++ pyErrStr pe), n)

/-- get_headers (src/main.py lines 73-80): a fresh token is fetched and
interpolated into the Authorization header. -/
def get_headers_t (e : NangoEnv) (b : BrokerOutcome) :
    Except String (List (String × String)) × Nat :=
  match get_airtable_token_t e b with
  | (Except.ok tok, n) =>
      (Except.ok [("Authorization", "Bearer " ++ pyStr tok),
                  ("Content-Type", "application/json")], n)
  | (Except.error m, n) => (Except.error m, n)

/-- An HTTP response from the Airtable gateway: status, reason phrase, the
body text, and the result of response.json() on that body (none when the
body is not valid JSON, the json.JSONDecodeError case). -/
structure HttpResponse where
  status : Nat
  reason : String
  text : String
  parsed : Option Json

/-- requests.Response.raise_for_status raises HTTPError exactly for the
client-error and server-error ranges, 400 <= status < 600. -/
def raise_for_status_fails (status : Nat) : Bool :=
  decide (400 ≤ status) && decide (status < 600)

/-- The expression error_body.get(error, dict()).get(message,
str(error_body)) of src/main.py line 106: none models an AttributeError
(a .get call on a value that is not a dict), which the bare except turns
into the raw-text fallback. -/
def getErrorDetail (body : Json) : Option String :=
  match body with
  | Json.obj kvs =>
    match dlookup kvs "error" with
    | none => some (pyRepr (Json.obj kvs))
    | some (Json.obj ekvs) =>
      match dlookup ekvs "message" with
      | some m => some (pyStr m)
      | none => some (pyRepr (Json.obj kvs))
    | some _ => none
  | _ => none

/-- The message of the ValueError raised for an HTTPError (src/main.py
lines 102-109): HTTP status and reason, then the detail from the parsed
body when the parse and the .get chain both succeed, else the raw text. -/
def httpErrorMessage (r : HttpResponse) : String :=
  let base := "HTTP " ++ toString r.status ++ ": " ++ r.reason
  match r.parsed with
  | some body =>
    match getErrorDetail body with
    | some d => base ++ " - " ++ d
    | none => base ++ " - " ++ r.text
  | none => base ++ " - " ++ r.text

/-- The response-handling part of handle_api_request (src/main.py lines
90-109): raise_for_status first, then the empty-body, JSON-body and
raw-body success cases. -/
def handle_api_response (r : HttpResponse) : Except String Json :=
  if raise_for_status_fails r.status then Except.error (httpErrorMessage r)
  else if r.text = "" then Except.ok (Json.obj [("success", Json.bool true)])
  else
    match r.parsed with
    | some j => Except.ok j
    | none => Except.ok (Json.obj [("raw_response", Json.str r.text)])

/-- handle_api_request (src/main.py lines 83-115) as a function of the
environment, the broker outcome and the Airtable response, with the
broker-call count threaded through: get_headers runs first inside the try
block, and a ValueError from it is re-raised with the Unexpected error
prefix by the final except clause. -/
def handle_api_request_t (e : NangoEnv) (b : BrokerOutcome) (r : HttpResponse) :
    Except String Json × Nat :=
  match get_headers_t e b with
  | (Except.error m, n) => (Except.error ("Unexpected error: " ++ m), n)
  | (Except.ok _, n) => (handle_api_response r, n)

/-- Two sequential invocations of handle_api_request, each with its own
broker outcome and response; the counts add up because no state is shared. -/
def handle_api_request_seq (e1 : NangoEnv) (b1 : BrokerOutcome) (r1 : HttpResponse)
    (e2 : NangoEnv) (b2 : BrokerOutcome) (r2 : HttpResponse) :
    (Except String Json × Except String Json) × Nat :=
  match handle_api_request_t e1 b1 r1, handle_api_request_t e2 b2 r2 with
  | (a1, n1), (a2, n2) => ((a1, a2), n1 + n2)

/-- Modelled from the spec sentence of the amended claim about error
details: the detail is the nested error.message when the body parses as a
JSON object whose error member is an object containing message; the string
form of the whole parsed body when the body parses as a JSON object and
that path stops at a missing key; and the raw response text otherwise. -/
def specErrorDetail (r : HttpResponse) : String :=
  match r.parsed with
  | none => r.text
  | some (Json.obj kvs) =>
    match dlookup kvs "error" with
    | some (Json.obj ekvs) =>
      match dlookup ekvs "message" with
      | some m => pyStr m
      | none => pyRepr (Json.obj kvs)
    | some _ => r.text
    | none => pyRepr (Json.obj kvs)
  | some _ => r.text

/-- The flattened list of query pairs the sort loop of list_records
produces when no overwriting happens, starting at element index n. -/
def sortPairsFrom : Nat → List (List (String × String)) → List (String × Json)
  | _, [] => []
  | n, o :: rest =>
      o.map (fun kv => (sortKey n kv.1, Json.str kv.2)) ++ sortPairsFrom (n + 1) rest

/-- The flattened list of query pairs of the whole sort parameter. -/
def sortPairs (ss : List (List (String × String))) : List (String × Json) :=
  sortPairsFrom 0 ss

/-! ### Lemmas about the dictionary operations -/

theorem dlookup_dictSet_self {α : Type} (d : List (String × α)) (k : String) (v : α) :
    dlookup (dictSet d k v) k = some v := by
  induction d with
  | nil => simp [dictSet, dlookup]
  | cons p rest ih =>
    obtain ⟨k0, v0⟩ := p
    by_cases hk : k0 = k
    · simp [dictSet, hk, dlookup]
    · simp [dictSet, hk, dlookup, ih]

theorem dlookup_dictSet_ne {α : Type} (d : List (String × α)) {k0 k : String} (v : α)
    (h : k0 ≠ k) : dlookup (dictSet d k0 v) k = dlookup d k := by
  induction d with
  | nil => simp [dictSet, dlookup, h]
  | cons p rest ih =>
    obtain ⟨k1, v1⟩ := p
    by_cases hk : k1 = k0
    · subst hk
      simp [dictSet, dlookup, h]
    · by_cases hk1 : k1 = k <;> simp [dictSet, hk, dlookup, hk1, ih, Ne.symm h]

theorem addOptBool_none (d : List (String × Json)) (k : String) :
    addOptBool d k none = d := rfl

theorem dlookup_addOptBool_self (d : List (String × Json)) (k : String) (b : Bool) :
    dlookup (addOptBool d k (some b)) k = some (Json.bool b) :=
  dlookup_dictSet_self d k (Json.bool b)

theorem dlookup_addOptBool_ne (d : List (String × Json)) {k0 k : String}
    (o : Option Bool) (h : k0 ≠ k) :
    dlookup (addOptBool d k0 o) k = dlookup d k := by
  cases o with
  | none => rfl
  | some b => exact dlookup_dictSet_ne d (Json.bool b) h

theorem dlookup_addStrParam_ne (d : List (String × Json)) {k0 k : String}
    (o : Option String) (h : k0 ≠ k) :
    dlookup (addStrParam d k0 o) k = dlookup d k := by
  cases o with
  | none => rfl
  | some s =>
    by_cases hs : s = "" <;> simp [addStrParam, hs, dlookup_dictSet_ne d _ h]

theorem dlookup_addListParam_ne (d : List (String × Json)) {k0 k : String}
    (o : Option (List String)) (h : k0 ≠ k) :
    dlookup (addListParam d k0 o) k = dlookup d k := by
  cases o with
  | none => rfl
  | some xs =>
    by_cases hx : xs = [] <;> simp [addListParam, hx, dlookup_dictSet_ne d _ h]

theorem dlookup_createRecordsBody_records (records : Option (List Json))
    (fields : Option (List (String × Json))) :
    dlookup (createRecordsBody records fields) "records"
      = (match records with
         | some (r :: rs) => some (Json.arr (r :: rs))
         | _ => none) := by
  rcases records with _ | (_ | ⟨r, rs⟩) <;>
    rcases fields with _ | (_ | ⟨f, fs⟩) <;>
      simp [createRecordsBody, dictSet, dlookup]

theorem dlookup_createRecordsBody_fields (records : Option (List Json))
    (fields : Option (List (String × Json))) :
    dlookup (createRecordsBody records fields) "fields"
      = (match records, fields with
         | some (_ :: _), _ => none
         | _, some (f :: fs) => some (Json.obj (f :: fs))
         | _, _ => none) := by
  rcases records with _ | (_ | ⟨r, rs⟩) <;>
    rcases fields with _ | (_ | ⟨f, fs⟩) <;>
      simp [createRecordsBody, dictSet, dlookup]

theorem dlookup_createRecordsBody_other (records : Option (List Json))
    (fields : Option (List (String × Json))) {k : String}
    (h1 : ("records" : String) ≠ k) (h2 : ("fields" : String) ≠ k) :
    dlookup (createRecordsBody records fields) k = none := by
  rcases records with _ | (_ | ⟨r, rs⟩) <;>
    rcases fields with _ | (_ | ⟨f, fs⟩) <;>
      simp [createRecordsBody, dictSet, dlookup, h1, h2]

theorem mem_dictSet {α : Type} {q : String × α} {d : List (String × α)}
    {k : String} {v : α} (h : q ∈ dictSet d k v) : q ∈ d ∨ q = (k, v) := by
  induction d with
  | nil => simpa [dictSet] using h
  | cons p rest ih =>
    obtain ⟨k1, v1⟩ := p
    by_cases hk : k1 = k
    · rw [dictSet, if_pos hk] at h
      rcases List.mem_cons.1 h with h1 | h1
      · exact Or.inr h1
      · exact Or.inl (List.mem_cons_of_mem _ h1)
    · rw [dictSet, if_neg hk] at h
      rcases List.mem_cons.1 h with h1 | h1
      · exact Or.inl (h1 ▸ List.mem_cons_self _ _)
      · rcases ih h1 with h2 | h2
        · exact Or.inl (List.mem_cons_of_mem _ h2)
        · exact Or.inr h2

theorem mem_foldl_dictSet_same_key {q : String × Json} (k : String) :
    ∀ (xs : List String) (d : List (String × Json)),
      q ∈ xs.foldl (fun d x => dictSet d k (Json.str x)) d → q ∈ d ∨ q.1 = k := by
  intro xs
  induction xs with
  | nil => intro d h; exact Or.inl h
  | cons x t ih =>
    intro d h
    rcases ih (dictSet d k (Json.str x)) h with h1 | h1
    · rcases mem_dictSet h1 with h2 | h2
      · exact Or.inl h2
      · exact Or.inr (by rw [h2])
    · exact Or.inr h1

theorem mem_addRepeatedParam {q : String × Json} {d : List (String × Json)}
    {k : String} {o : Option (List String)}
    (h : q ∈ addRepeatedParam d k o) : q ∈ d ∨ q.1 = k := by
  cases o with
  | none => exact Or.inl h
  | some xs =>
    by_cases hx : xs = []
    · rw [addRepeatedParam, if_pos hx] at h
      exact Or.inl h
    · rw [addRepeatedParam, if_neg hx] at h
      exact mem_foldl_dictSet_same_key k xs d h

theorem mem_addStrParam {q : String × Json} {d : List (String × Json)}
    {k : String} {o : Option String}
    (h : q ∈ addStrParam d k o) : q ∈ d ∨ q.1 = k := by
  cases o with
  | none => exact Or.inl h
  | some s =>
    by_cases hs : s = ""
    · rw [addStrParam, if_pos hs] at h
      exact Or.inl h
    · rw [addStrParam, if_neg hs] at h
      rcases mem_dictSet h with h1 | h1
      · exact Or.inl h1
      · exact Or.inr (by rw [h1])

theorem mem_addIntParam {q : String × Json} {d : List (String × Json)}
    {k : String} {o : Option Int}
    (h : q ∈ addIntParam d k o) : q ∈ d ∨ q.1 = k := by
  cases o with
  | none => exact Or.inl h
  | some n =>
    by_cases hn : n = 0
    · rw [addIntParam, if_pos hn] at h
      exact Or.inl h
    · rw [addIntParam, if_neg hn] at h
      rcases mem_dictSet h with h1 | h1
      · exact Or.inl h1
      · exact Or.inr (by rw [h1])

theorem dictSet_append {α : Type} {d : List (String × α)} {k : String} {v : α}
    (h : ∀ q ∈ d, q.1 ≠ k) : dictSet d k v = d ++ [(k, v)] := by
  induction d with
  | nil => rfl
  | cons p rest ih =>
    obtain ⟨k1, v1⟩ := p
    have hk : k1 ≠ k := h (k1, v1) (List.mem_cons_self _ _)
    rw [dictSet, if_neg hk, ih fun q hq => h q (List.mem_cons_of_mem _ hq)]
    rfl

theorem foldl_dictSet_append :
    ∀ (L d : List (String × Json)),
      (∀ q ∈ d, ∀ p ∈ L, q.1 ≠ p.1) → (L.map Prod.fst).Nodup →
      L.foldl (fun acc kv => dictSet acc kv.1 kv.2) d = d ++ L := by
  intro L
  induction L with
  | nil => intro d _ _; simp
  | cons p t ih =>
    intro d hd hnd
    obtain ⟨k, v⟩ := p
    rw [List.foldl_cons]
    have h1 : dictSet d k v = d ++ [(k, v)] :=
      dictSet_append fun q hq => hd q hq (k, v) (List.mem_cons_self _ _)
    have hk : k ∉ t.map Prod.fst := by
      have := hnd
      simp only [List.map_cons, List.nodup_cons] at this
      exact this.1
    have hfresh : ∀ q ∈ d ++ [(k, v)], ∀ p2 ∈ t, q.1 ≠ p2.1 := by
      intro q hq p2 hp2
      rcases List.mem_append.1 hq with h2 | h2
      · exact hd q h2 p2 (List.mem_cons_of_mem _ hp2)
      · have hq1 : q = (k, v) := by simpa using h2
        rw [hq1]
        intro hcontra
        have hkp : k = p2.1 := hcontra
        exact hk (by rw [hkp]; exact List.mem_map_of_mem Prod.fst hp2)
    have hnd2 : (t.map Prod.fst).Nodup := by
      simp only [List.map_cons, List.nodup_cons] at hnd
      exact hnd.2
    calc List.foldl (fun acc kv => dictSet acc kv.1 kv.2) (dictSet d k v) t
        = (d ++ [(k, v)]) ++ t := by rw [h1]; exact ih (d ++ [(k, v)]) hfresh hnd2
      _ = d ++ (k, v) :: t := by simp

theorem str_data_append (a b : String) : (a ++ b).data = a.data ++ b.data := by
  cases a; cases b; rfl

theorem sortKey_head (i : Nat) (k : String) :
    (sortKey i k).data.head? = some 's' := by
  rw [sortKey, str_data_append]
  rfl

theorem mem_sortPairsFrom_head {pr : String × Json} :
    ∀ (n : Nat) (ss : List (List (String × String))),
      pr ∈ sortPairsFrom n ss → pr.1.data.head? = some 's' := by
  intro n ss
  induction ss generalizing n with
  | nil => intro h; simp [sortPairsFrom] at h
  | cons o rest ih =>
    intro h
    rw [sortPairsFrom] at h
    rcases List.mem_append.1 h with h1 | h1
    · rcases List.mem_map.1 h1 with ⟨kv, -, hkv⟩
      rw [← hkv]
      exact sortKey_head n kv.1
    · exact ih (n + 1) h1

theorem enumFrom_sortFold_eq :
    ∀ (ss : List (List (String × String))) (n : Nat) (d : List (String × Json)),
      (List.enumFrom n ss).foldl
        (fun d p =>
          p.2.foldl (fun d kv => dictSet d (sortKey p.1 kv.1) (Json.str kv.2)) d) d
      = (sortPairsFrom n ss).foldl (fun acc kv => dictSet acc kv.1 kv.2) d := by
  intro ss
  induction ss with
  | nil => intro n d; rfl
  | cons o rest ih =>
    intro n d
    rw [show List.enumFrom n (o :: rest) = (n, o) :: List.enumFrom (n + 1) rest from rfl]
    rw [List.foldl_cons, sortPairsFrom, List.foldl_append, ih (n + 1)]
    congr 1
    rw [List.foldl_map]

theorem listRecordsParams_none_head (fields : Option (List String))
    (filter_by_formula : Option String) (max_records page_size : Option Int)
    (view cell_format time_zone user_locale : Option String) :
    ∀ q ∈ listRecordsParams fields filter_by_formula max_records page_size none
        view cell_format time_zone user_locale,
      q.1.data.head? ≠ some 's' := by
  intro q hq
  rw [listRecordsParams] at hq
  rcases mem_addStrParam hq with hq | hk
  · rcases mem_addStrParam hq with hq | hk
    · rcases mem_addStrParam hq with hq | hk
      · rcases mem_addStrParam hq with hq | hk
        · rcases mem_addIntParam hq with hq | hk
          · rcases mem_addIntParam hq with hq | hk
            · rcases mem_addStrParam hq with hq | hk
              · rcases mem_addRepeatedParam hq with hq | hk
                · simp at hq
                · rw [hk]; decide
              · rw [hk]; decide
            · rw [hk]; decide
          · rw [hk]; decide
        · rw [hk]; decide
      · rw [hk]; decide
    · rw [hk]; decide
  · rw [hk]; decide

/-! ### Claim theorems -/

/-- C1: the claim states that each element of a fields (or user_ids or
emails) list becomes its own repeated bracketed query key, in input order.
The code instead assigns every element to the same dict key, so only one
entry survives, holding the last element: evaluating the builders at the
failing inputs shows a single fields[] entry with value Status, a single
id[] entry with value u2 and a single email[] entry with the last email. -/
theorem repeated_param_key_overwritten :
    listRecordsParams (some ["Name", "Status"]) none none none none none none none none
        = [("fields[]", Json.str "Status")]
    ∧ getUsersByIdOrEmailParams (some ["u1", "u2"]) none none
        = [("id[]", Json.str "u2")]
    ∧ getUsersByIdOrEmailParams none (some ["a@example.com", "b@example.com"]) none
        = [("email[]", Json.str "b@example.com")] :=
  ⟨rfl, rfl, rfl⟩

/-- C6: every element i of the sort list and every key k of that element
is encoded as the query key sort[i][k] holding that value; element order
and per-element key order are preserved, the whole block being appended
after the scalar parameters.  The hypotheses state that the sort list is
non-empty (the claim quantifies over non-empty lists) and that the
generated keys are pairwise distinct, which holds for every list of
Python dicts since dict keys are unique and the index makes keys of
different elements distinct. -/
theorem sort_params_bracket_encoding (fields : Option (List String))
    (filter_by_formula : Option String) (max_records page_size : Option Int)
    (view cell_format time_zone user_locale : Option String)
    (ss : List (List (String × String))) (hne : ss ≠ [])
    (hnd : ((sortPairs ss).map Prod.fst).Nodup) :
    listRecordsParams fields filter_by_formula max_records page_size (some ss)
        view cell_format time_zone user_locale
      = listRecordsParams fields filter_by_formula max_records page_size none
          view cell_format time_zone user_locale ++ sortPairs ss := by
  have key : ∀ (P : List (String × Json)), (∀ q ∈ P, q.1.data.head? ≠ some 's') →
      addSortParams P (some ss) = P ++ sortPairs ss := by
    intro P hP
    rw [addSortParams, if_neg hne]
    rw [show ss.enum = List.enumFrom 0 ss from rfl]
    rw [enumFrom_sortFold_eq]
    exact foldl_dictSet_append (sortPairsFrom 0 ss) P
      (fun q hq p hp => by
        have h1 := hP q hq
        have h2 := mem_sortPairsFrom_head 0 ss hp
        intro hc
        rw [hc] at h1
        exact h1 h2)
      hnd
  exact key _ (listRecordsParams_none_head fields filter_by_formula max_records
    page_size view cell_format time_zone user_locale)

/-- C6 witness: the concrete P6 example sort=[...field Name, direction asc...]
instantiates the encoding theorem. -/
theorem sort_params_bracket_encoding_witness :
    ([[("field", "Name"), ("direction", "asc")]] ≠ ([] : List (List (String × String))))
    ∧ (((sortPairs [[("field", "Name"), ("direction", "asc")]]).map Prod.fst).Nodup)
    ∧ listRecordsParams none none none none
        (some [[("field", "Name"), ("direction", "asc")]]) none none none none
      = listRecordsParams none none none none none none none none none
          ++ sortPairs [[("field", "Name"), ("direction", "asc")]] :=
  ⟨by decide, by decide,
    sort_params_bracket_encoding none none none none none none none none
      [[("field", "Name"), ("direction", "asc")]] (by decide) (by decide)⟩

/-- C7 (amended): the body of create_records holds the records key exactly
when a non-empty batch was supplied, holds the fields key exactly when the
batch was absent or empty and a non-empty fields mapping was supplied, and
never holds both keys.  The claim as stated says fields is honored only
when the batch is absent; the counterexample shows an empty supplied batch
also lets fields through. -/
theorem create_records_key_precedence (records : Option (List Json))
    (fields : Option (List (String × Json)))
    (typecast return_fields_by_field_id : Option Bool) :
    (dlookup (create_records_data records fields typecast return_fields_by_field_id)
        "records"
      = (match records with
         | some (r :: rs) => some (Json.arr (r :: rs))
         | _ => none))
    ∧ (dlookup (create_records_data records fields typecast return_fields_by_field_id)
        "fields"
      = (match records, fields with
         | some (_ :: _), _ => none
         | _, some (f :: fs) => some (Json.obj (f :: fs))
         | _, _ => none))
    ∧ (((dlookup (create_records_data records fields typecast return_fields_by_field_id)
          "records").isSome
        && (dlookup (create_records_data records fields typecast
            return_fields_by_field_id) "fields").isSome) = false) := by
  have hrec : dlookup (create_records_data records fields typecast
      return_fields_by_field_id) "records"
      = dlookup (createRecordsBody records fields) "records" := by
    rw [create_records_data]
    rw [dlookup_addOptBool_ne _ _ (by decide)]
    rw [dlookup_addOptBool_ne _ _ (by decide)]
  have hfld : dlookup (create_records_data records fields typecast
      return_fields_by_field_id) "fields"
      = dlookup (createRecordsBody records fields) "fields" := by
    rw [create_records_data]
    rw [dlookup_addOptBool_ne _ _ (by decide)]
    rw [dlookup_addOptBool_ne _ _ (by decide)]
  refine ⟨?_, ?_, ?_⟩
  · rw [hrec, dlookup_createRecordsBody_records]
  · rw [hfld, dlookup_createRecordsBody_fields]
  · rw [hrec, hfld, dlookup_createRecordsBody_records, dlookup_createRecordsBody_fields]
    rcases records with _ | (_ | ⟨r, rs⟩) <;> rcases fields with _ | (_ | ⟨f, fs⟩) <;> rfl

/-- C7 counterexample: a supplied-but-empty records batch is not absent,
yet a supplied fields mapping is still placed under the fields key, so the
claim that fields is honored only when the batch is absent fails. -/
theorem create_records_empty_batch_uses_fields :
    create_records_data (some []) (some [("Name", Json.str "x")]) none none
        = [("fields", Json.obj [("Name", Json.str "x")])]
    ∧ some ([] : List Json) ≠ none :=
  ⟨rfl, by simp⟩

/-- C8: for every optional boolean flag of the record operations
(returnFieldsByFieldId of get_record, typecast and returnFieldsByFieldId of
create_records, typecast, returnFieldsByFieldId and performUpsert of
update_multiple_records, removeFromDescendants and isDryRun of
remove_user_from_enterprise), supplying false stores the key exactly like
supplying true, and only None omits the key. -/
theorem optional_bool_flags_encoding (b : Bool) (cf ro : Option String)
    (r : Option (List Json)) (f : Option (List (String × Json)))
    (t rf pu rfd idr : Option Bool) (recs : List Json)
    (fm : Option (List String)) :
    (dlookup (get_record_params cf (some b)) "returnFieldsByFieldId"
        = some (Json.bool b))
    ∧ (dlookup (get_record_params cf none) "returnFieldsByFieldId" = none)
    ∧ (dlookup (create_records_data r f (some b) rf) "typecast"
        = some (Json.bool b))
    ∧ (dlookup (create_records_data r f none rf) "typecast" = none)
    ∧ (dlookup (create_records_data r f t (some b)) "returnFieldsByFieldId"
        = some (Json.bool b))
    ∧ (dlookup (create_records_data r f t none) "returnFieldsByFieldId" = none)
    ∧ (dlookup (update_multiple_records_data recs (some b) rf pu fm) "typecast"
        = some (Json.bool b))
    ∧ (dlookup (update_multiple_records_data recs none rf pu fm) "typecast" = none)
    ∧ (dlookup (update_multiple_records_data recs t (some b) pu fm)
        "returnFieldsByFieldId" = some (Json.bool b))
    ∧ (dlookup (update_multiple_records_data recs t none pu fm)
        "returnFieldsByFieldId" = none)
    ∧ (dlookup (update_multiple_records_data recs t rf (some b) fm) "performUpsert"
        = some (Json.bool b))
    ∧ (dlookup (update_multiple_records_data recs t rf none fm) "performUpsert"
        = none)
    ∧ (dlookup (remove_user_from_enterprise_data ro (some b) idr)
        "removeFromDescendants" = some (Json.bool b))
    ∧ (dlookup (remove_user_from_enterprise_data ro none idr)
        "removeFromDescendants" = none)
    ∧ (dlookup (remove_user_from_enterprise_data ro rfd (some b)) "isDryRun"
        = some (Json.bool b))
    ∧ (dlookup (remove_user_from_enterprise_data ro rfd none) "isDryRun" = none)
    := by
  refine ⟨?_, ?_, ?_, ?_, ?_, ?_, ?_, ?_, ?_, ?_, ?_, ?_, ?_, ?_, ?_, ?_⟩
  · exact dlookup_addOptBool_self _ _ b
  · rw [get_record_params, addOptBool_none]
    rw [dlookup_addStrParam_ne _ _ (by decide)]
    rfl
  · rw [create_records_data]
    rw [dlookup_addOptBool_ne _ _ (by decide)]
    exact dlookup_addOptBool_self _ _ b
  · rw [create_records_data, addOptBool_none]
    rw [dlookup_addOptBool_ne _ _ (by decide)]
    exact dlookup_createRecordsBody_other r f (by decide) (by decide)
  · rw [create_records_data]
    exact dlookup_addOptBool_self _ _ b
  · rw [create_records_data, addOptBool_none]
    rw [dlookup_addOptBool_ne _ _ (by decide)]
    exact dlookup_createRecordsBody_other r f (by decide) (by decide)
  · rw [update_multiple_records_data]
    rw [dlookup_addListParam_ne _ fm (by decide)]
    rw [dlookup_addOptBool_ne _ _ (by decide)]
    rw [dlookup_addOptBool_ne _ _ (by decide)]
    exact dlookup_addOptBool_self _ _ b
  · rw [update_multiple_records_data, addOptBool_none]
    rw [dlookup_addListParam_ne _ fm (by decide)]
    rw [dlookup_addOptBool_ne _ _ (by decide)]
    rw [dlookup_addOptBool_ne _ _ (by decide)]
    rfl
  · rw [update_multiple_records_data]
    rw [dlookup_addListParam_ne _ fm (by decide)]
    rw [dlookup_addOptBool_ne _ _ (by decide)]
    exact dlookup_addOptBool_self _ _ b
  · rw [update_multiple_records_data, addOptBool_none]
    rw [dlookup_addListParam_ne _ fm (by decide)]
    rw [dlookup_addOptBool_ne _ _ (by decide)]
    rw [dlookup_addOptBool_ne _ _ (by decide)]
    rfl
  · rw [update_multiple_records_data]
    rw [dlookup_addListParam_ne _ fm (by decide)]
    exact dlookup_addOptBool_self _ _ b
  · rw [update_multiple_records_data, addOptBool_none]
    rw [dlookup_addListParam_ne _ fm (by decide)]
    rw [dlookup_addOptBool_ne _ _ (by decide)]
    rw [dlookup_addOptBool_ne _ _ (by decide)]
    rfl
  · rw [remove_user_from_enterprise_data]
    rw [dlookup_addOptBool_ne _ _ (by decide)]
    exact dlookup_addOptBool_self _ _ b
  · rw [remove_user_from_enterprise_data, addOptBool_none]
    rw [dlookup_addOptBool_ne _ _ (by decide)]
    rw [dlookup_addStrParam_ne _ _ (by decide)]
    rfl
  · rw [remove_user_from_enterprise_data]
    exact dlookup_addOptBool_self _ _ b
  · rw [remove_user_from_enterprise_data, addOptBool_none]
    rw [dlookup_addOptBool_ne _ _ (by decide)]
    rw [dlookup_addStrParam_ne _ _ (by decide)]
    rfl

/-- C10: in list_records the falsy non-None values of the optional
parameters are dropped exactly as if the parameter were unset: an empty
fields list, an empty filter formula, max_records 0, page_size 0 and an
empty sort list each produce the same query as None, because every one of
these parameters is guarded by truthiness. -/
theorem falsy_params_omitted (fields : Option (List String))
    (filter_by_formula : Option String) (max_records page_size : Option Int)
    (sort : Option (List (List (String × String))))
    (view cell_format time_zone user_locale : Option String) :
    (listRecordsParams (some []) filter_by_formula max_records page_size sort
        view cell_format time_zone user_locale
      = listRecordsParams none filter_by_formula max_records page_size sort
          view cell_format time_zone user_locale)
    ∧ (listRecordsParams fields (some "") max_records page_size sort
        view cell_format time_zone user_locale
      = listRecordsParams fields none max_records page_size sort
          view cell_format time_zone user_locale)
    ∧ (listRecordsParams fields filter_by_formula (some 0) page_size sort
        view cell_format time_zone user_locale
      = listRecordsParams fields filter_by_formula none page_size sort
          view cell_format time_zone user_locale)
    ∧ (listRecordsParams fields filter_by_formula max_records (some 0) sort
        view cell_format time_zone user_locale
      = listRecordsParams fields filter_by_formula max_records none sort
          view cell_format time_zone user_locale)
    ∧ (listRecordsParams fields filter_by_formula max_records page_size (some [])
        view cell_format time_zone user_locale
      = listRecordsParams fields filter_by_formula max_records page_size none
          view cell_format time_zone user_locale) :=
  ⟨rfl, rfl, rfl, rfl, rfl⟩

/-- C2 (amended): for every response whose status is in the range the
raise_for_status call treats as an error (400 to 599), handle_api_request
raises ValueError with message HTTP status, reason, then the detail given
by specErrorDetail: the nested error.message when the body parses as a
JSON object whose error member is an object containing message; the str()
of the whole parsed body when the body parses as a JSON object and the
path stops at a missing key; and the raw response text otherwise.  The
claim as stated fails for 1xx and 3xx statuses, which raise_for_status
lets through, and for JSON bodies whose error member is not an object,
where the AttributeError fallback yields the raw text. -/
theorem handle_api_request_4xx5xx_message (r : HttpResponse)
    (h : 400 ≤ r.status ∧ r.status < 600) :
    handle_api_response r
      = Except.error ("HTTP " ++ toString r.status ++ ": " ++ r.reason ++ " - "
          ++ specErrorDetail r) := by
  have hf : raise_for_status_fails r.status = true := by
    rw [raise_for_status_fails]
    simp [h.1, h.2]
  rw [handle_api_response, if_pos hf]
  rcases r with ⟨st, rs, tx, pr⟩
  rw [httpErrorMessage, specErrorDetail]
  cases pr with
  | none => rfl
  | some body =>
    cases body with
    | null => rfl
    | bool b => rfl
    | num n => rfl
    | str s => rfl
    | arr xs => rfl
    | obj kvs =>
      rcases herr : dlookup kvs "error" with _ | ev
      · simp only [getErrorDetail, herr]
      · cases ev with
        | null => simp only [getErrorDetail, herr]
        | bool b => simp only [getErrorDetail, herr]
        | num n => simp only [getErrorDetail, herr]
        | str s => simp only [getErrorDetail, herr]
        | arr xs => simp only [getErrorDetail, herr]
        | obj ekvs =>
          rcases hmsg : dlookup ekvs "message" with _ | m <;>
            simp only [getErrorDetail, herr, hmsg]

/-- C2 witness: the P7 example, a 422 response whose body carries a nested
error.message, yields the ValueError message containing 422 and the nested
message text. -/
theorem handle_api_request_4xx5xx_message_witness :
    (400 ≤ 422 ∧ 422 < 600)
    ∧ handle_api_response
        ⟨422, "Unprocessable Entity",
         "\x7b\"error\": \x7b\"message\": \"Invalid field\"\x7d\x7d",
         some (Json.obj [("error", Json.obj [("message", Json.str "Invalid field")])])⟩
      = Except.error "HTTP 422: Unprocessable Entity - Invalid field" :=
  ⟨⟨by decide, by decide⟩,
    (handle_api_request_4xx5xx_message
      ⟨422, "Unprocessable Entity",
       "\x7b\"error\": \x7b\"message\": \"Invalid field\"\x7d\x7d",
       some (Json.obj [("error", Json.obj [("message", Json.str "Invalid field")])])⟩
      ⟨by decide, by decide⟩).trans (by rfl)⟩

/-- C2 counterexample: a 304 response has a non-2xx status, yet
raise_for_status does not raise for it, so handle_api_request returns the
empty-body success value instead of failing as the claim states. -/
theorem handle_api_request_304_success :
    handle_api_response ⟨304, "Not Modified", "", none⟩
        = Except.ok (Json.obj [("success", Json.bool true)])
    ∧ ¬(200 ≤ 304 ∧ 304 ≤ 299) :=
  ⟨rfl, by decide⟩

/-- C3: for every 2xx response the gateway returns exactly one of the
three success outcomes determined by the body: the success-true object for
an empty body, the parsed JSON value as-is for a JSON body, and the
raw_response wrapper for a non-empty body that is not JSON. -/
theorem handle_api_request_2xx_outcomes (r : HttpResponse)
    (h : 200 ≤ r.status ∧ r.status ≤ 299) :
    (r.text = "" →
      handle_api_response r = Except.ok (Json.obj [("success", Json.bool true)]))
    ∧ (∀ j, r.text ≠ "" → r.parsed = some j →
        handle_api_response r = Except.ok j)
    ∧ (r.text ≠ "" → r.parsed = none →
        handle_api_response r
          = Except.ok (Json.obj [("raw_response", Json.str r.text)])) := by
  have hf : raise_for_status_fails r.status = false := by
    rw [raise_for_status_fails]
    have : ¬(400 ≤ r.status) := by omega
    simp [this]
  refine ⟨?_, ?_, ?_⟩
  · intro ht
    rw [handle_api_response, if_neg (by rw [hf]; exact Bool.false_ne_true), if_pos ht]
  · intro j ht hp
    rw [handle_api_response, if_neg (by rw [hf]; exact Bool.false_ne_true),
      if_neg ht, hp]
  · intro ht hp
    rw [handle_api_response, if_neg (by rw [hf]; exact Bool.false_ne_true),
      if_neg ht, hp]

/-- C3 witness: a 200 response with an empty body returns the success-true
object, and a 200 response with the JSON body [1] returns the parsed list. -/
theorem handle_api_request_2xx_outcomes_witness :
    (200 ≤ 200 ∧ 200 ≤ 299)
    ∧ handle_api_response ⟨200, "OK", "", none⟩
        = Except.ok (Json.obj [("success", Json.bool true)])
    ∧ handle_api_response ⟨200, "OK", "[1]", some (Json.arr [Json.num 1])⟩
        = Except.ok (Json.arr [Json.num 1]) :=
  ⟨⟨by decide, by decide⟩,
    (handle_api_request_2xx_outcomes ⟨200, "OK", "", none⟩
      ⟨by decide, by decide⟩).1 rfl,
    (handle_api_request_2xx_outcomes ⟨200, "OK", "[1]", some (Json.arr [Json.num 1])⟩
      ⟨by decide, by decide⟩).2.1 (Json.arr [Json.num 1]) (by decide) rfl⟩

/-- C4 (amended): for every broker payload that is a JSON object whose
credentials member, when present, is itself a JSON object, the token
provider returns the nested credentials.access_token value when that path
is present, otherwise the flat access_token value when present, and when
neither is present fails with the wrapped ValueError whose message
contains No access_token found.  The claim as stated quantifies over all
payloads, and fails when the membership checks hit a non-container value:
see the counterexample. -/
theorem get_airtable_token_shape_trichotomy (kvs : List (String × Json))
    (hcred : ∀ v, dlookup kvs "credentials" = some v → ∃ ikvs, v = Json.obj ikvs) :
    (∀ ikvs v, dlookup kvs "credentials" = some (Json.obj ikvs) →
        dlookup ikvs "access_token" = some v →
        get_airtable_token (Json.obj kvs) = Except.ok v)
    ∧ (∀ v, (∀ ikvs, dlookup kvs "credentials" = some (Json.obj ikvs) →
          dlookup ikvs "access_token" = none) →
        dlookup kvs "access_token" = some v →
        get_airtable_token (Json.obj kvs) = Except.ok v)
    ∧ ((∀ ikvs, dlookup kvs "credentials" = some (Json.obj ikvs) →
          dlookup ikvs "access_token" = none) →
        dlookup kvs "access_token" = none →
        get_airtable_token (Json.obj kvs)
          = Except.error ("Failed to get authentication token from Nango: "
              ++ "No access_token found in Nango credentials response"))
    ∧ (strContains ("Failed to get authentication token from Nango: "
        ++ "No access_token found in Nango credentials response")
        "No access_token found" = true) := by
  refine ⟨?_, ?_, ?_, by decide⟩
  · intro ikvs v hc ht
    simp [get_airtable_token, extractAccessToken, pyIn, pyGetItem, hc, ht]
  · intro v hnested hflat
    cases hc : dlookup kvs "credentials" with
    | none =>
      simp [get_airtable_token, extractAccessToken, pyIn, pyGetItem, hc, hflat]
    | some cv =>
      obtain ⟨ikvs, rfl⟩ := hcred cv hc
      have hn := hnested ikvs hc
      simp [get_airtable_token, extractAccessToken, pyIn, pyGetItem, hc, hn, hflat]
  · intro hnested hflat
    cases hc : dlookup kvs "credentials" with
    | none =>
      simp [get_airtable_token, extractAccessToken, pyIn, pyGetItem, pyErrStr,
        hc, hflat]
    | some cv =>
      obtain ⟨ikvs, rfl⟩ := hcred cv hc
      have hn := hnested ikvs hc
      simp [get_airtable_token, extractAccessToken, pyIn, pyGetItem, pyErrStr,
        hc, hn, hflat]

/-- C4 witness: the two accepted payload shapes of the claim, the nested
one returning tok123 and the flat one returning tok456, instantiate the
trichotomy. -/
theorem get_airtable_token_shape_trichotomy_witness :
    get_airtable_token
        (Json.obj [("credentials", Json.obj [("access_token", Json.str "tok123")])])
      = Except.ok (Json.str "tok123")
    ∧ get_airtable_token (Json.obj [("access_token", Json.str "tok456")])
      = Except.ok (Json.str "tok456") := by
  constructor
  · exact (get_airtable_token_shape_trichotomy
      [("credentials", Json.obj [("access_token", Json.str "tok123")])]
      (by
        intro v hv
        have h2 : some (Json.obj [("access_token", Json.str "tok123")]) = some v := hv
        exact ⟨_, (Option.some.inj h2).symm⟩)).1
      [("access_token", Json.str "tok123")] (Json.str "tok123") rfl rfl
  · exact (get_airtable_token_shape_trichotomy
      [("access_token", Json.str "tok456")]
      (by
        intro v hv
        have h2 : (none : Option Json) = some v := hv
        exact Option.noConfusion h2)).2.1
      (Json.str "tok456")
      (by
        intro ikvs hik
        have h2 : (none : Option Json) = some (Json.obj ikvs) := hik
        exact Option.noConfusion h2)
      rfl

/-- C4 counterexample: the payload with a credentials member holding the
number 42 has neither accepted shape, yet the membership check raises a
TypeError, so the wrapped message mentions the type error and not No
access_token found, against the claim. -/
theorem get_airtable_token_nonobject_credentials :
    get_airtable_token (Json.obj [("credentials", Json.num 42)])
        = Except.error ("Failed to get authentication token from Nango: "
            ++ ("argument of type " ++ pyQuote ++ "int" ++ pyQuote
              ++ " is not iterable"))
    ∧ strContains ("Failed to get authentication token from Nango: "
        ++ ("argument of type " ++ pyQuote ++ "int" ++ pyQuote
          ++ " is not iterable"))
        "No access_token found" = false
    ∧ dlookup [("credentials", Json.num 42)] "access_token" = none :=
  ⟨rfl, by decide, rfl⟩

/-- C5: whenever at least one of the four Nango environment variables is
absent or empty, get_connection_credentials fails without making any HTTP
call (count 0, independent of the broker outcome), and its message lists
exactly the missing or empty variable names: membership in the listed
names is equivalent to being one of the four names whose value is falsy. -/
theorem missing_env_vars_enumerated (e : NangoEnv) (b : BrokerOutcome)
    (h : missingVars e ≠ []) :
    get_connection_credentials_t e b
      = (Except.error ("Missing required Nango environment variables: "
          ++ String.intercalate ", " (missingVars e)), 0)
    ∧ (∀ name, name ∈ missingVars e ↔
        ((name = "NANGO_CONNECTION_ID" ∧ envTruthy e.connection_id = false)
        ∨ (name = "NANGO_INTEGRATION_ID" ∧ envTruthy e.integration_id = false)
        ∨ (name = "NANGO_BASE_URL" ∧ envTruthy e.base_url = false)
        ∨ (name = "NANGO_SECRET_KEY" ∧ envTruthy e.secret_key = false))) := by
  rcases e with ⟨x1, x2, x3, x4⟩
  constructor
  · have hall : (nangoEnvPairs (NangoEnv.mk x1 x2 x3 x4)).all
        (fun p => envTruthy p.2) = false := by
      cases h1 : envTruthy x1 <;> cases h2 : envTruthy x2 <;>
        cases h3 : envTruthy x3 <;> cases h4 : envTruthy x4 <;>
        simp_all [missingVars, nangoEnvPairs]
    simp [get_connection_credentials_t, nangoPrecheckError, hall]
  · intro name
    cases h1 : envTruthy x1 <;> cases h2 : envTruthy x2 <;>
      cases h3 : envTruthy x3 <;> cases h4 : envTruthy x4 <;>
      simp [missingVars, nangoEnvPairs, h1, h2, h3, h4]

/-- C5 witness: with NANGO_CONNECTION_ID absent and NANGO_SECRET_KEY empty,
the precheck fails with zero broker calls and lists exactly those two
names. -/
theorem missing_env_vars_enumerated_witness :
    missingVars (NangoEnv.mk none (some "intg") (some "url") (some "")) ≠ []
    ∧ (get_connection_credentials_t
        (NangoEnv.mk none (some "intg") (some "url") (some ""))
        (BrokerOutcome.httpFailure "unused")
      = (Except.error ("Missing required Nango environment variables: "
          ++ String.intercalate ", "
            (missingVars (NangoEnv.mk none (some "intg") (some "url") (some "")))), 0)
    ∧ (∀ name,
        name ∈ missingVars (NangoEnv.mk none (some "intg") (some "url") (some "")) ↔
        ((name = "NANGO_CONNECTION_ID"
            ∧ envTruthy (NangoEnv.mk none (some "intg") (some "url") (some "")).connection_id = false)
        ∨ (name = "NANGO_INTEGRATION_ID"
            ∧ envTruthy (NangoEnv.mk none (some "intg") (some "url") (some "")).integration_id = false)
        ∨ (name = "NANGO_BASE_URL"
            ∧ envTruthy (NangoEnv.mk none (some "intg") (some "url") (some "")).base_url = false)
        ∨ (name = "NANGO_SECRET_KEY"
            ∧ envTruthy (NangoEnv.mk none (some "intg") (some "url") (some "")).secret_key = false)))) :=
  ⟨by decide,
    missing_env_vars_enumerated (NangoEnv.mk none (some "intg") (some "url") (some ""))
      (BrokerOutcome.httpFailure "unused") (by decide)⟩

/-- A successful gateway invocation implies the broker was called exactly
once: the precheck must have passed (a failed precheck short-circuits to a
wrapped error before any HTTP call), and every path after the precheck
performs exactly one broker request. -/
theorem handle_api_request_success_count (e : NangoEnv) (b : BrokerOutcome)
    (r : HttpResponse) (h : ∃ v, (handle_api_request_t e b r).1 = Except.ok v) :
    (handle_api_request_t e b r).2 = 1 := by
  obtain ⟨v, hv⟩ := h
  cases hpre : nangoPrecheckError e with
  | some m =>
    simp [handle_api_request_t, get_headers_t, get_airtable_token_t,
      get_connection_credentials_t, hpre] at hv
  | none =>
    cases b with
    | success j =>
      cases hx : extractAccessToken j with
      | ok tok =>
        simp [handle_api_request_t, get_headers_t, get_airtable_token_t,
          get_connection_credentials_t, hpre, hx]
      | error pe =>
        simp [handle_api_request_t, get_headers_t, get_airtable_token_t,
          get_connection_credentials_t, hpre, hx] at hv
    | httpFailure m =>
      simp [handle_api_request_t, get_headers_t, get_airtable_token_t,
        get_connection_credentials_t, hpre] at hv
    | parseFailure m =>
      simp [handle_api_request_t, get_headers_t, get_airtable_token_t,
        get_connection_credentials_t, hpre] at hv

/-- C9: two sequential successful invocations of handle_api_request each
independently call the Nango broker exactly once, and their sequential
composition performs exactly two broker calls; no credential or header
state flows from one invocation into the other, each being a function of
its own environment, broker outcome and response alone. -/
theorem broker_called_once_per_request (e1 e2 : NangoEnv) (b1 b2 : BrokerOutcome)
    (r1 r2 : HttpResponse)
    (h1 : ∃ v, (handle_api_request_t e1 b1 r1).1 = Except.ok v)
    (h2 : ∃ v, (handle_api_request_t e2 b2 r2).1 = Except.ok v) :
    (handle_api_request_t e1 b1 r1).2 = 1
    ∧ (handle_api_request_t e2 b2 r2).2 = 1
    ∧ (handle_api_request_seq e1 b1 r1 e2 b2 r2).2 = 2 := by
  have c1 := handle_api_request_success_count e1 b1 r1 h1
  have c2 := handle_api_request_success_count e2 b2 r2 h2
  refine ⟨c1, c2, ?_⟩
  show (handle_api_request_t e1 b1 r1).2 + (handle_api_request_t e2 b2 r2).2 = 2
  rw [c1, c2]

/-- C9 witness: a complete environment, a broker payload with a flat
access_token and a 200 empty-body response give two successful sequential
invocations, each with broker-call count one and total two. -/
theorem broker_called_once_per_request_witness :
    (∃ v, (handle_api_request_t (NangoEnv.mk (some "c") (some "i") (some "u") (some "k"))
        (BrokerOutcome.success (Json.obj [("access_token", Json.str "tok")]))
        ⟨200, "OK", "", none⟩).1 = Except.ok v)
    ∧ ((handle_api_request_t (NangoEnv.mk (some "c") (some "i") (some "u") (some "k"))
        (BrokerOutcome.success (Json.obj [("access_token", Json.str "tok")]))
        ⟨200, "OK", "", none⟩).2 = 1
      ∧ (handle_api_request_t (NangoEnv.mk (some "c") (some "i") (some "u") (some "k"))
          (BrokerOutcome.success (Json.obj [("access_token", Json.str "tok")]))
          ⟨200, "OK", "", none⟩).2 = 1
      ∧ (handle_api_request_seq
          (NangoEnv.mk (some "c") (some "i") (some "u") (some "k"))
          (BrokerOutcome.success (Json.obj [("access_token", Json.str "tok")]))
          ⟨200, "OK", "", none⟩
          (NangoEnv.mk (some "c") (some "i") (some "u") (some "k"))
          (BrokerOutcome.success (Json.obj [("access_token", Json.str "tok")]))
          ⟨200, "OK", "", none⟩).2 = 2) :=
  ⟨⟨Json.obj [("success", Json.bool true)], rfl⟩,
    broker_called_once_per_request
      (NangoEnv.mk (some "c") (some "i") (some "u") (some "k"))
      (NangoEnv.mk (some "c") (some "i") (some "u") (some "k"))
      (BrokerOutcome.success (Json.obj [("access_token", Json.str "tok")]))
      (BrokerOutcome.success (Json.obj [("access_token", Json.str "tok")]))
      ⟨200, "OK", "", none⟩ ⟨200, "OK", "", none⟩
      ⟨Json.obj [("success", Json.bool true)], rfl⟩
      ⟨Json.obj [("success", Json.bool true)], rfl⟩⟩
